import Mathlib

/-!
Verification development for the TreasuryHunterBackend repository.

The development gives a shallow embedding of the treasure-discovery pipeline
of `src/routes/treasures.js` (which contains two variants of the routes:
variant 1 and variant 2, in file order), of the Mongoose schemas and unique
indexes of `src/models/index.js`, and of the balance gate of
`src/services/SuiService.js`.

Embedding conventions:
* Machine numbers are ℕ / ℤ / ℚ.  Timestamps are milliseconds as ℕ.
* The great-circle distance of `calculateDistance` is a real-valued
  computation (JS `Math` trigonometry); it is embedded over ℝ below
  (`calculateDistance`).  The route pipelines take the distance function as
  an explicit parameter `distFn : ℚ → ℚ → ℚ → ℚ → ℚ` standing for the
  numeric result of that call, so that the pipeline itself stays executable;
  all pipeline theorems are quantified over `distFn`.
* Display-only fields (name, description, imageUrl, metadata) are omitted
  from the records: no route decision depends on them.
* MongoDB collections are lists; `save` on a document with a unique index
  is an insert that fails exactly when an indexed field collides
  (`tryInsert`).  A thrown/rejected error that reaches the outer catch of a
  handler is the outcome `serverError` (HTTP 500).
* The Sui gateway call is a parameter `chain : ChainReply`: the reply the
  gateway would produce for this request (success with object ids, or a
  thrown error message).  `suiDiscoverTreasure` models the balance gate that
  `SuiService.discoverTreasure` puts in front of the transaction.
-/

namespace TreasureHunt

/-- Substring test on character lists: does `needle` occur at the head of `hay`? -/
def startsAt : List Char → List Char → Bool
  | _, [] => true
  | [], _ :: _ => false
  | a :: as, b :: bs => a == b && startsAt as bs

/-- JS `String.prototype.includes`: does `needle` occur anywhere in `hay`? -/
def hasSub : List Char → List Char → Bool
  | [], needle => startsAt [] needle
  | hay@(_ :: t), needle => startsAt hay needle || hasSub t needle

/-- String-level wrapper for `hasSub`, modelling `msg.includes(pattern)`. -/
def strIncludes (hay needle : String) : Bool :=
  hasSub hay.data needle.data

/-- JS `Math.round` on an exact rational: round half toward positive infinity,
that is the floor of `q + 1/2`, computed on numerator and denominator. -/
def jsRound (q : ℚ) : ℤ := Rat.floor (mkRat (2 * q.num + (q.den : ℤ)) (2 * q.den))

/-- Rank-name to ordinal table `getRankNumber` of `treasures.js` (unknown names
default to 1, as does a missing profile rank). -/
def getRankNumber (rank : String) : ℕ :=
  if rank = "beginner" then 1
  else if rank = "explorer" then 2
  else if rank = "hunter" then 3
  else if rank = "master" then 4
  else 1

/-- The rank recomputation of `updateHunterRank` in `treasures.js`, as a
function of `totalTreasuresFound`. -/
def updateHunterRank (treasuresFound : ℕ) : String :=
  if treasuresFound ≥ 50 then "master"
  else if treasuresFound ≥ 20 then "hunter"
  else if treasuresFound ≥ 5 then "explorer"
  else "beginner"

/-- Threshold table of `getTreasuresNeededForRank` in `treasures.js`
(ordinal 1 → 0, 2 → 5, 3 → 20, 4 → 50, unknown → 0); the spec presents the
same table as the rank thresholds. -/
def getTreasuresNeededForRank (rank : ℕ) : ℕ :=
  if rank = 1 then 0
  else if rank = 2 then 5
  else if rank = 3 then 20
  else if rank = 4 then 50
  else 0

/-- Modelled from the spec: the rank recomputation stated as
"the maximal rank ordinal whose threshold is at most totalTreasuresFound".
Written from the spec sentence, to be compared with `updateHunterRank`. -/
def specMaxRank (treasuresFound : ℕ) : ℕ :=
  ([1, 2, 3, 4].filter (fun r => getTreasuresNeededForRank r ≤ treasuresFound)).foldl max 0

/-- A treasure record (gameplay fields of the `Treasure` schema; the
`fromBlockchain` flag marks a value synthesized by `parseBlockchainTreasure`
rather than loaded from the collection). -/
structure Treasure where
  treasureId : String
  latitude : ℚ
  longitude : ℚ
  rarity : ℕ
  rewardPoints : ℕ
  requiredRank : ℕ
  isActive : Bool
  fromBlockchain : Bool := false
  deriving Repr, DecidableEq

/-- A discovery-ledger record (fields of the `TreasureDiscovery` schema that
carry unique indexes or claim-relevant flags). -/
structure Discovery where
  userId : String
  treasureId : String
  nftObjectId : String
  transactionDigest : String
  offline : Bool
  deriving Repr, DecidableEq

/-- A hunter profile (the `HunterProfile` schema).  `lastHuntTimestamp` is an
optional millisecond timestamp. -/
structure HunterProfile where
  userId : String
  rank : String
  totalTreasuresFound : ℕ
  totalScore : ℕ
  currentStreak : ℕ
  longestStreak : ℕ
  lastHuntTimestamp : Option ℕ
  deriving Repr, DecidableEq

/-- The blockchain-credential fields of the `User` schema that the discover
routes consult (`profileObjectId` and `encryptedPrivateKey`). -/
structure UserRec where
  userId : String
  profileObjectId : Option String
  encryptedPrivateKey : Option String
  deriving Repr, DecidableEq

/-- The persistent state the discover routes read and write. -/
structure Store where
  treasures : List Treasure
  discoveries : List Discovery
  profiles : List HunterProfile
  users : List UserRec
  deriving Repr, DecidableEq

/-- `Treasure.findOne (treasureId, isActive: true)`. -/
def findActiveTreasure (ts : List Treasure) (id : String) : Option Treasure :=
  ts.find? (fun t => t.treasureId == id && t.isActive)

/-- `TreasureDiscovery.findOne (treasureId)`. -/
def findDiscovery (ds : List Discovery) (id : String) : Option Discovery :=
  ds.find? (fun d => d.treasureId == id)

/-- `HunterProfile.findOne (userId)`. -/
def findProfile (ps : List HunterProfile) (uid : String) : Option HunterProfile :=
  ps.find? (fun p => p.userId == uid)

/-- `User.findById (userId)`. -/
def findUser (us : List UserRec) (uid : String) : Option UserRec :=
  us.find? (fun u => u.userId == uid)

/-- Replace the profile document with the given userId (Mongoose `save` on a
loaded document). -/
def saveProfile (ps : List HunterProfile) (uid : String) (p2 : HunterProfile) :
    List HunterProfile :=
  ps.map (fun p => if p.userId == uid then p2 else p)

/-- Does inserting `d` violate one of the three unique indexes of the
`treasurediscoveries` collection (`treasureId`, `nftObjectId`,
`transactionDigest`, each declared `unique: true` in `models/index.js`)? -/
def violatesUnique (ds : List Discovery) (d : Discovery) : Bool :=
  ds.any (fun e =>
    e.treasureId == d.treasureId || e.nftObjectId == d.nftObjectId ||
      e.transactionDigest == d.transactionDigest)

/-- The ledger insert: MongoDB rejects the write with a duplicate-key error
exactly when a unique index collides, atomically with the insert. -/
def tryInsert (ds : List Discovery) (d : Discovery) : Except Unit (List Discovery) :=
  if violatesUnique ds d then .error () else .ok (ds ++ [d])

/-- The at-most-once invariant of the discovery ledger: no two records share
a treasure id. -/
def atMostOnePerTreasure (ds : List Discovery) : Prop :=
  ds.Pairwise (fun a b => a.treasureId ≠ b.treasureId)

instance (ds : List Discovery) : Decidable (atMostOnePerTreasure ds) := by
  unfold atMostOnePerTreasure; exact List.instDecidablePairwise ds

/-- One observable transition of the discovery ledger: a read (no mutation),
a successful insert, or an insert rejected by the unique constraint. -/
inductive LedgerStep : List Discovery → List Discovery → Prop
  | read (s : List Discovery) : LedgerStep s s
  | insertOk (s : List Discovery) (d : Discovery) (s2 : List Discovery) :
      tryInsert s d = .ok s2 → LedgerStep s s2
  | insertDup (s : List Discovery) (d : Discovery) :
      tryInsert s d = .error () → LedgerStep s s

/-- Ledger states reachable from the empty collection through pipeline
operations. -/
inductive ReachableLedger : List Discovery → Prop
  | empty : ReachableLedger []
  | step (s s2 : List Discovery) :
      ReachableLedger s → LedgerStep s s2 → ReachableLedger s2

/-- The treasure synthesized by `parseBlockchainTreasure` in variant 2 of
`treasures.js` from the claimed id and the coordinate string: rarity,
required rank and reward derive from substring patterns of the id, with a
fixed override table for the two known ids `TREASURE_001` and
`VN_COMMON_001`.  `plat`/`plng` are the coordinates parsed from the
`coordinates` string (the `split`/`parseFloat` step).  Display-only fields
(name, description, imageUrl) are omitted as in the rest of the model. -/
def parseBlockchainTreasure (treasureId : String) (plat plng : ℚ) : Treasure :=
  let patterns :=
    if strIncludes treasureId "LEGENDARY" || strIncludes treasureId "DRAGON" ||
        strIncludes treasureId "EPIC" then (3, 3, 500)
    else if strIncludes treasureId "RARE" || strIncludes treasureId "GOLDEN" ||
        strIncludes treasureId "ROYAL" then (2, 2, 300)
    else if strIncludes treasureId "COMMON" || strIncludes treasureId "BRONZE" ||
        strIncludes treasureId "BASIC" then (1, 1, 150)
    else (1, 1, 100)
  let known : Option (ℕ × ℕ × ℕ) :=
    if treasureId = "TREASURE_001" then some (3, 2, 500)
    else if treasureId = "VN_COMMON_001" then some (1, 1, 150)
    else none
  { treasureId := treasureId
    latitude := plat
    longitude := plng
    rarity := (known.getD patterns).1
    rewardPoints := (known.getD patterns).2.2
    requiredRank := (known.getD patterns).2.1
    isActive := true
    fromBlockchain := true }

/-- Step 8 of both discover variants, updating the hunter profile in source
order: first `lastHuntTimestamp` is overwritten with the save time `tSave`
(`new Date()`), then `timeDiff` is computed from `Date.now()` (`tNow`) and
the freshly written timestamp, then streak, longest streak and rank are
updated.  Both route variants execute the two time reads back to back within
the same request, so the pipelines below pass `tSave = tNow = now`. -/
def applyProfileUpdate (p : HunterProfile) (rewardPoints : ℕ) (tSave tNow : ℕ) :
    HunterProfile :=
  let p1 : HunterProfile :=
    { p with
      totalTreasuresFound := p.totalTreasuresFound + 1
      totalScore := p.totalScore + rewardPoints
      lastHuntTimestamp := some tSave }
  let timeDiff := tNow - (p1.lastHuntTimestamp.getD 0)
  let p2 : HunterProfile :=
    if timeDiff ≤ 86400000 then { p1 with currentStreak := p1.currentStreak + 1 }
    else { p1 with currentStreak := 1 }
  let p3 : HunterProfile :=
    if p2.currentStreak > p2.longestStreak then
      { p2 with longestStreak := p2.currentStreak }
    else p2
  { p3 with rank := updateHunterRank p3.totalTreasuresFound }

/-- The reply of the Sui gateway call (`suiService.discoverTreasure`): either
the resolved object ids of a successful mint, or the message of the thrown
error. -/
inductive ChainReply
  | success (nftObjectId transactionDigest : String)
  | failure (msg : String)
  deriving Repr, DecidableEq

/-- The error message thrown by `SuiService.discoverTreasure` when the
gas balance is too low. -/
def insufficientBalanceMsg : String :=
  "Insufficient SUI balance for transaction. Need at least 0.05 SUI for gas."

/-- The balance gate of `SuiService.discoverTreasure`: with fewer than
0.05 SUI (5·10⁷ MIST) the call throws the insufficient-balance error before
submitting; otherwise it produces whatever the transaction produces
(`txReply`). -/
def suiDiscoverTreasure (balanceMist : ℕ) (txReply : ChainReply) : ChainReply :=
  if mkRat balanceMist 1000000000 < mkRat 5 100 then .failure insufficientBalanceMsg
  else txReply

/-- Terminal outcomes of one POST /discover request (either variant).
`serverError` is any rejection that reaches the outer catch and returns
HTTP 500 (duplicate-key rejections of the ledger insert, the null-profile
TypeError of variant 1).  `success offline` reports whether the committed
discovery is an offline one. -/
inductive DiscoverOutcome
  | notFound
  | alreadyDiscovered (discoveredBy : String)
  | tooFar (distance : ℤ)
  | rankTooLow
  | profileNotFound
  | userNotFound
  | chainAlreadyFound
  | chainLocationRejected
  | insufficientGas
  | serverError
  | success (offline : Bool)
  deriving Repr, DecidableEq

/-- One POST /discover request body: the authenticated user, the claimed
treasure id, the claimed coordinates, and the coordinates which variant 2
parses out of the `locationProof` string for treasure synthesis. -/
structure DiscoverReq where
  userId : String
  treasureId : String
  lat : ℚ
  lng : ℚ
  proofLat : ℚ
  proofLng : ℚ
  deriving Repr, DecidableEq

/-- The chain step of variant 1 (step 6): the gateway is called only when the
user has both blockchain credentials, and the inner catch swallows every
chain error, leaving the discovery result empty. -/
def v1ChainRes (u : UserRec) (chain : ChainReply) : Option (String × String) :=
  if u.profileObjectId.isSome && u.encryptedPrivateKey.isSome then
    match chain with
    | .success nft tx => some (nft, tx)
    | .failure _ => none
  else none

/-- The `TreasureDiscovery` document built by step 7 of variant 1: real or
fallback object id (`offline_` plus the millisecond timestamp) and real or
constant fallback digest (`offline_transaction`). -/
def v1Discovery (req : DiscoverReq) (now : ℕ) (cres : Option (String × String)) :
    Discovery :=
  { userId := req.userId
    treasureId := req.treasureId
    nftObjectId := ((cres.map Prod.fst).getD ("offline_" ++ toString now))
    transactionDigest := ((cres.map Prod.snd).getD "offline_transaction")
    offline := cres.isNone }

/-- The offline-mode instance of `v1Discovery` (chain skipped or failed). -/
def offlineDiscoveryV1 (req : DiscoverReq) (now : ℕ) : Discovery :=
  v1Discovery req now none

/-- Variant 1 of POST /discover (the first handler in `treasures.js`):
absent-or-inactive treasure is a 404; every chain error is swallowed by the
inner catch (the handler then commits an offline discovery with the constant
transaction digest `offline_transaction`); there is no profile existence
check, so a missing profile crashes in step 8 after the ledger write. -/
def discoverV1 (distFn : ℚ → ℚ → ℚ → ℚ → ℚ) (chain : ChainReply) (now : ℕ)
    (store : Store) (req : DiscoverReq) : DiscoverOutcome × Store :=
  match findActiveTreasure store.treasures req.treasureId with
  | none => (.notFound, store)
  | some t =>
    match findDiscovery store.discoveries req.treasureId with
    | some e => (.alreadyDiscovered e.userId, store)
    | none =>
      let d := distFn req.lat req.lng t.latitude t.longitude
      if 100 < d then (.tooFar (jsRound d), store)
      else
        let profOpt := findProfile store.profiles req.userId
        if getRankNumber ((profOpt.map HunterProfile.rank).getD "beginner") <
            t.requiredRank then (.rankTooLow, store)
        else
          match findUser store.users req.userId with
          | none => (.userNotFound, store)
          | some u =>
            let chainRes := v1ChainRes u chain
            match tryInsert store.discoveries (v1Discovery req now chainRes) with
            | .error _ => (.serverError, store)
            | .ok ds2 =>
              match profOpt with
              | none => (.serverError, { store with discoveries := ds2 })
              | some p =>
                let p2 := applyProfileUpdate p t.rewardPoints now now
                (.success chainRes.isNone,
                  { store with
                    discoveries := ds2
                    profiles := saveProfile store.profiles req.userId p2 })

/-- Variant 2 treasure resolution (step 1): an absent or inactive treasure is
not an error — the handler synthesizes one from the id and the coordinates
parsed from the location proof. -/
def resolveTreasureV2 (ts : List Treasure) (id : String) (plat plng : ℚ) :
    Treasure :=
  match findActiveTreasure ts id with
  | some t => t
  | none => parseBlockchainTreasure id plat plng

/-- The `TreasureDiscovery` document built by step 7 of variant 2: the
offline fallback references carry the treasure id and the millisecond
timestamp. -/
def v2Discovery (req : DiscoverReq) (now : ℕ) (cres : Option (String × String)) :
    Discovery :=
  { userId := req.userId
    treasureId := req.treasureId
    nftObjectId := ((cres.map Prod.fst).getD
      ("offline_" ++ req.treasureId ++ "_" ++ toString now))
    transactionDigest := ((cres.map Prod.snd).getD
      ("offline_tx_" ++ toString now))
    offline := cres.isNone }

/-- Steps 7–9 of variant 2 once the chain step has finished: ledger insert,
profile update, and the best-effort save of an auto-generated treasure
(ignored when the unique index on `treasureId` rejects it). -/
def commitV2 (now : ℕ) (store : Store) (req : DiscoverReq) (t : Treasure)
    (p : HunterProfile) (chainRes : Option (String × String)) :
    DiscoverOutcome × Store :=
  match tryInsert store.discoveries (v2Discovery req now chainRes) with
  | .error _ => (.serverError, store)
  | .ok ds2 =>
    let p2 := applyProfileUpdate p t.rewardPoints now now
    let store2 : Store :=
      { store with
        discoveries := ds2
        profiles := saveProfile store.profiles req.userId p2 }
    let store3 : Store :=
      if t.fromBlockchain then
        if store2.treasures.any (fun x => x.treasureId == t.treasureId) then
          store2
        else
          { store2 with
            treasures := store2.treasures ++ [{ t with fromBlockchain := false }] }
      else store2
    (.success chainRes.isNone, store3)

/-- Variant 2 of POST /discover (the second handler in `treasures.js`):
treasure synthesis instead of 404, an explicit profile existence check, and
three recognized chain error patterns that abort the claim before the
ledger write; any other chain error degrades to an offline commit. -/
def discoverV2 (distFn : ℚ → ℚ → ℚ → ℚ → ℚ) (chain : ChainReply) (now : ℕ)
    (store : Store) (req : DiscoverReq) : DiscoverOutcome × Store :=
  let t := resolveTreasureV2 store.treasures req.treasureId req.proofLat req.proofLng
  match findDiscovery store.discoveries req.treasureId with
  | some e => (.alreadyDiscovered e.userId, store)
  | none =>
    let d := distFn req.lat req.lng t.latitude t.longitude
    if 100 < d then (.tooFar (jsRound d), store)
    else
      match findProfile store.profiles req.userId with
      | none => (.profileNotFound, store)
      | some p =>
        if getRankNumber p.rank < t.requiredRank then (.rankTooLow, store)
        else
          match findUser store.users req.userId with
          | none => (.userNotFound, store)
          | some u =>
            if u.profileObjectId.isSome && u.encryptedPrivateKey.isSome then
              match chain with
              | .success nft tx => commitV2 now store req t p (some (nft, tx))
              | .failure msg =>
                if strIncludes msg "E_TREASURE_ALREADY_FOUND" then
                  (.chainAlreadyFound, store)
                else if strIncludes msg "E_INVALID_LOCATION" then
                  (.chainLocationRejected, store)
                else if strIncludes msg "Insufficient SUI balance" then
                  (.insufficientGas, store)
                else commitV2 now store req t p none
            else commitV2 now store req t p none

/-- One entry of the GET /nearby response: the surviving treasure together
with its rounded distance. -/
structure NearbyEntry where
  treasure : Treasure
  distance : ℤ
  deriving Repr, DecidableEq

/-- The active treasures within the radius as MongoDB `$near` with
`limit(20)` returns them: sorted by ascending distance, capped at 20 before
anything else happens. -/
def nearbyPool (distFn : ℚ → ℚ → ℚ → ℚ → ℚ) (store : Store)
    (lat lng radius : ℚ) : List Treasure :=
  ((store.treasures.filter
      (fun t => t.isActive && distFn lat lng t.latitude t.longitude ≤ radius)).insertionSort
    (fun a b => distFn lat lng a.latitude a.longitude ≤
      distFn lat lng b.latitude b.longitude)).take 20

/-- The pool minus every treasure id present in the discovery ledger
(step 3 of GET /nearby). -/
def nearbyAvailable (distFn : ℚ → ℚ → ℚ → ℚ → ℚ) (store : Store)
    (lat lng radius : ℚ) : List Treasure :=
  (nearbyPool distFn store lat lng radius).filter
    (fun t => !((store.discoveries.map Discovery.treasureId).contains t.treasureId))

/-- GET /nearby: the geospatial query returns active treasures within the
radius ordered by ascending distance and capped at 20 (`$near` with
`limit(20)`); the handler then filters out every treasure id present in the
discovery ledger, attaches rounded distances, and sorts by the rounded
distance. -/
def nearbyQuery (distFn : ℚ → ℚ → ℚ → ℚ → ℚ) (store : Store)
    (lat lng radius : ℚ) : List NearbyEntry :=
  ((nearbyAvailable distFn store lat lng radius).map
    (fun t => NearbyEntry.mk t
      (jsRound (distFn lat lng t.latitude t.longitude)))).insertionSort
    (fun a b => a.distance ≤ b.distance)

instance : IsTotal NearbyEntry (fun a b => a.distance ≤ b.distance) :=
  ⟨fun a b => Int.le_total a.distance b.distance⟩

instance : IsTrans NearbyEntry (fun a b => a.distance ≤ b.distance) :=
  ⟨fun _ _ _ hab hbc => Int.le_trans hab hbc⟩

/-- JS `Math.atan2` over the reals (the discover routes only apply it to
non-negative arguments). -/
noncomputable def atan2 (y x : ℝ) : ℝ :=
  if 0 < x then Real.arctan (y / x)
  else if x < 0 ∧ 0 ≤ y then Real.arctan (y / x) + Real.pi
  else if x < 0 ∧ y < 0 then Real.arctan (y / x) - Real.pi
  else if x = 0 ∧ 0 < y then Real.pi / 2
  else if x = 0 ∧ y < 0 then -(Real.pi / 2)
  else 0

/-- The haversine great-circle distance `calculateDistance` of
`treasures.js`, embedded over ℝ (earth radius 6 371 000 m). -/
noncomputable def calculateDistance (lat1 lng1 lat2 lng2 : ℝ) : ℝ :=
  let R : ℝ := 6371000
  let f1 := lat1 * Real.pi / 180
  let f2 := lat2 * Real.pi / 180
  let df := (lat2 - lat1) * Real.pi / 180
  let dl := (lng2 - lng1) * Real.pi / 180
  let a := Real.sin (df / 2) * Real.sin (df / 2) +
    Real.cos f1 * Real.cos f2 * (Real.sin (dl / 2) * Real.sin (dl / 2))
  let c := 2 * atan2 (Real.sqrt a) (Real.sqrt (1 - a))
  R * c

/-- The proximity guard of both discover variants: a claim is rejected
exactly when the computed distance strictly exceeds the 100 m tolerance
(`if (distance > 100)`). -/
def proximityRejected (d : ℝ) : Prop := 100 < d

/-- A distance oracle that reports 0 m for every pair of coordinate pairs
(used to instantiate the pipeline theorems at concrete inputs). -/
def cZeroDist : ℚ → ℚ → ℚ → ℚ → ℚ := fun _ _ _ _ => 0

/-- Fixture: an active rank-1 treasure at the origin. -/
def wTreasure : Treasure :=
  { treasureId := "T1", latitude := 0, longitude := 0, rarity := 1,
    rewardPoints := 250, requiredRank := 1, isActive := true }

/-- Fixture: a fresh beginner profile. -/
def wProfile : HunterProfile :=
  { userId := "u", rank := "beginner", totalTreasuresFound := 0, totalScore := 0,
    currentStreak := 0, longestStreak := 0, lastHuntTimestamp := none }

/-- Fixture: a user with both blockchain credentials. -/
def wUserCreds : UserRec :=
  { userId := "u", profileObjectId := some "0xp", encryptedPrivateKey := some "k" }

/-- Fixture: a user without blockchain credentials. -/
def wUserNoCreds : UserRec :=
  { userId := "u", profileObjectId := none, encryptedPrivateKey := none }

/-- Fixture: a store in which user `u` passes every pre-chain check for
treasure `T1`. -/
def wStore : Store :=
  { treasures := [wTreasure], discoveries := [], profiles := [wProfile],
    users := [wUserCreds] }

/-- Fixture: the same store with no hunter profile for user `u`. -/
def wStoreNoProfile : Store :=
  { treasures := [wTreasure], discoveries := [], profiles := [],
    users := [wUserNoCreds] }

/-- Fixture: the discover request of user `u` for treasure `T1` claimed at
the origin. -/
def wReq : DiscoverReq :=
  { userId := "u", treasureId := "T1", lat := 0, lng := 0, proofLat := 0,
    proofLng := 0 }

/-- Fixture: a second active rank-1 treasure, distinct from `T1`. -/
def c10Treasure : Treasure :=
  { treasureId := "T2", latitude := 0, longitude := 0, rarity := 1,
    rewardPoints := 100, requiredRank := 1, isActive := true }

/-- Fixture: a store that already holds the offline discovery of `T1`
committed by variant 1 (constant digest `offline_transaction`). -/
def c10Store : Store :=
  { treasures := [c10Treasure], discoveries := [offlineDiscoveryV1 wReq 3],
    profiles := [wProfile], users := [wUserNoCreds] }

/-- Fixture: a discover request of user `u` for the second treasure `T2`. -/
def c10Req : DiscoverReq :=
  { userId := "u", treasureId := "T2", lat := 0, lng := 0, proofLat := 0,
    proofLng := 0 }

/-- Fixture distance oracle that reports the latitude of the target point as
the distance (lets each fixture treasure carry its own distance). -/
def c8Dist : ℚ → ℚ → ℚ → ℚ → ℚ := fun _ _ tlat _ => tlat

/-- Fixture: the i-th of 21 active treasures, at distance i under `c8Dist`. -/
def c8Treasure (i : ℕ) : Treasure :=
  { treasureId := toString i, latitude := mkRat i 1, longitude := 0, rarity := 1,
    rewardPoints := 100, requiredRank := 1, isActive := true }

/-- Fixture: the prior discovery of the nearest fixture treasure (id "0"). -/
def c8Discovered : Discovery :=
  { userId := "u", treasureId := "0", nftObjectId := "n0",
    transactionDigest := "g0", offline := true }

/-- Fixture: 21 active in-radius treasures of which the nearest one (id "0")
is already discovered. -/
def c8Store : Store :=
  { treasures := (List.range 21).map c8Treasure
    discoveries := [c8Discovered]
    profiles := [], users := [] }

/-- Fixture: an inactive treasure with id `X` at the origin. -/
def c9Treasure : Treasure :=
  { treasureId := "X", latitude := 0, longitude := 0, rarity := 1,
    rewardPoints := 100, requiredRank := 1, isActive := false }

/-- Fixture: a store whose only treasure `X` exists but is inactive. -/
def c9Store : Store :=
  { treasures := [c9Treasure], discoveries := [], profiles := [wProfile],
    users := [wUserNoCreds] }

/-- Fixture: the discover request of user `u` for the inactive treasure `X`. -/
def c9Req : DiscoverReq :=
  { userId := "u", treasureId := "X", lat := 0, lng := 0, proofLat := 0,
    proofLng := 0 }

/-- Fixture: the empty store. -/
def emptyStore : Store :=
  { treasures := [], discoveries := [], profiles := [], users := [] }

/-- Fixture: a first discovery record for treasure `tid`. -/
def dWitA : Discovery :=
  { userId := "u1", treasureId := "tid", nftObjectId := "n1",
    transactionDigest := "g1", offline := false }

/-- Fixture: a second discovery record racing on the same treasure `tid`. -/
def dWitB : Discovery :=
  { userId := "u2", treasureId := "tid", nftObjectId := "n2",
    transactionDigest := "g2", offline := false }

/-- C2: the streak update of step 8 never resets.  Both discover variants
overwrite `lastHuntTimestamp` with the current time before computing
`timeDiff`, so `timeDiff` is always 0 and `currentStreak` is incremented
unconditionally; the reset-to-1 branch is dead.  In particular a profile
whose last hunt was 25 hours ago (timestamp 0, update at 90 000 000 ms) with
streak 5 ends with streak 6, not 1 as the claim states. -/
theorem c2_streak_always_increments :
    (∀ (p : HunterProfile) (r now : ℕ),
      (applyProfileUpdate p r now now).currentStreak = p.currentStreak + 1) ∧
    (applyProfileUpdate
      { userId := "u1", rank := "explorer", totalTreasuresFound := 7,
        totalScore := 900, currentStreak := 5, longestStreak := 5,
        lastHuntTimestamp := some 0 } 100 90000000 90000000).currentStreak = 6 := by
  constructor
  · intro p r now
    simp only [applyProfileUpdate]
    norm_num
    split <;> rfl
  · rfl

/-- C6: the haversine distance is zero on equal coordinate pairs and is
symmetric, and the proximity guard accepts a computed distance of exactly
100 m, rejects 100.01 m, and rejects exactly when the distance exceeds
100 m. -/
theorem c6_distance_properties :
    (∀ lat lng : ℝ, calculateDistance lat lng lat lng = 0) ∧
    (∀ lat1 lng1 lat2 lng2 : ℝ,
      calculateDistance lat1 lng1 lat2 lng2 =
        calculateDistance lat2 lng2 lat1 lng1) ∧
    ¬ proximityRejected 100 ∧ proximityRejected 100.01 ∧
    (∀ d : ℝ, proximityRejected d ↔ 100 < d) := by
  refine ⟨?_, ?_, ?_, ?_, fun d => Iff.rfl⟩
  · intro lat lng
    simp [calculateDistance, atan2, Real.arctan_zero]
  · intro lat1 lng1 lat2 lng2
    have e1 : Real.sin ((lat1 - lat2) * Real.pi / 180 / 2) =
        -Real.sin ((lat2 - lat1) * Real.pi / 180 / 2) := by
      rw [show (lat1 - lat2) * Real.pi / 180 / 2 =
        -((lat2 - lat1) * Real.pi / 180 / 2) by ring, Real.sin_neg]
    have e2 : Real.sin ((lng1 - lng2) * Real.pi / 180 / 2) =
        -Real.sin ((lng2 - lng1) * Real.pi / 180 / 2) := by
      rw [show (lng1 - lng2) * Real.pi / 180 / 2 =
        -((lng2 - lng1) * Real.pi / 180 / 2) by ring, Real.sin_neg]
    simp only [calculateDistance]
    rw [e1, e2]
    ring_nf
  · norm_num [proximityRejected]
  · norm_num [proximityRejected]

/-- C7: after a successful discovery `updateHunterRank` assigns the maximal
rank whose threshold is at most the new total: master exactly when at least
50 treasures are found, else hunter exactly when at least 20, else explorer
exactly when at least 5, else beginner; its ordinal agrees with the
spec-modelled maximal-threshold rank for every input, and the recomputation
is a pure function of the total. -/
theorem c7_rank_thresholds (n : ℕ) :
    (updateHunterRank n = "master" ↔ 50 ≤ n) ∧
    (updateHunterRank n = "hunter" ↔ 20 ≤ n ∧ n < 50) ∧
    (updateHunterRank n = "explorer" ↔ 5 ≤ n ∧ n < 20) ∧
    (updateHunterRank n = "beginner" ↔ n < 5) ∧
    getRankNumber (updateHunterRank n) = specMaxRank n := by
  have hspec : specMaxRank n =
      if 50 ≤ n then 4 else if 20 ≤ n then 3 else if 5 ≤ n then 2 else 1 := by
    unfold specMaxRank getTreasuresNeededForRank
    rcases le_or_lt 50 n with h50 | h50
    · have h20 : 20 ≤ n := by omega
      have h5 : 5 ≤ n := by omega
      simp [h50, h20, h5]
    · rcases le_or_lt 20 n with h20 | h20
      · have h5 : 5 ≤ n := by omega
        have h50x : ¬ 50 ≤ n := by omega
        simp [h50x, h20, h5]
      · rcases le_or_lt 5 n with h5 | h5
        · have h50x : ¬ 50 ≤ n := by omega
          have h20x : ¬ 20 ≤ n := by omega
          simp [h50x, h20x, h5]
        · have h50x : ¬ 50 ≤ n := by omega
          have h20x : ¬ 20 ≤ n := by omega
          have h5x : ¬ 5 ≤ n := by omega
          simp [h50x, h20x, h5x]
  rw [hspec]
  unfold updateHunterRank getRankNumber
  split_ifs with h1 h2 h3 <;>
    refine ⟨?_, ?_, ?_, ?_, ?_⟩ <;> simp_all <;> omega

/-- A successful `tryInsert` appends the record and certifies that no
existing record collides on any unique index. -/
theorem tryInsert_ok_elim {ds : List Discovery} {d : Discovery}
    {l : List Discovery} (h : tryInsert ds d = .ok l) :
    l = ds ++ [d] ∧ ∀ e ∈ ds, e.treasureId ≠ d.treasureId := by
  unfold tryInsert at h
  by_cases hv : violatesUnique ds d
  · simp [hv] at h
  · simp [hv] at h
    refine ⟨h.symm, ?_⟩
    intro e he heq
    unfold violatesUnique at hv
    simp only [List.any_eq_true, Bool.or_eq_true, beq_iff_eq, not_exists,
      not_and, not_or] at hv
    exact (hv e he).1.1 heq

/-- A collision-free insert succeeds and appends. -/
theorem tryInsert_ok_of {ds : List Discovery} {d : Discovery}
    (hv : violatesUnique ds d = false) : tryInsert ds d = .ok (ds ++ [d]) := by
  unfold tryInsert
  simp [hv]

/-- An insert that collides on a unique index is rejected. -/
theorem tryInsert_error_of {ds : List Discovery} {d : Discovery}
    (hv : violatesUnique ds d = true) : tryInsert ds d = .error () := by
  unfold tryInsert
  simp [hv]

/-- The unique constraint alone preserves the at-most-once invariant:
no assumption is made about any pre-insert existence check on `d`. -/
theorem atMostOne_tryInsert {ds : List Discovery} {d : Discovery}
    {l : List Discovery} (h : atMostOnePerTreasure ds)
    (hins : tryInsert ds d = .ok l) : atMostOnePerTreasure l := by
  obtain ⟨rfl, hnew⟩ := tryInsert_ok_elim hins
  unfold atMostOnePerTreasure at h ⊢
  rw [List.pairwise_append]
  refine ⟨h, List.pairwise_singleton _ _, ?_⟩
  intro a ha b hb
  simp only [List.mem_singleton] at hb
  subst hb
  exact hnew a ha

/-- Every reachable ledger state satisfies the at-most-once invariant. -/
theorem reachable_atMostOne {s : List Discovery} (h : ReachableLedger s) :
    atMostOnePerTreasure s := by
  induction h with
  | empty => exact List.Pairwise.nil
  | step s s2 _ hstep ih =>
    cases hstep with
    | read => exact ih
    | insertOk d s2 hok => exact atMostOne_tryInsert ih hok
    | insertDup d hdup => exact ih

/-- An insert whose treasure id already occurs in the ledger is rejected by
the unique constraint, independently of any pre-check. -/
theorem tryInsert_dup_treasure {ds : List Discovery} {d : Discovery}
    (h : ∃ e ∈ ds, e.treasureId = d.treasureId) : tryInsert ds d = .error () := by
  obtain ⟨e, he, heq⟩ := h
  refine tryInsert_error_of ?_
  unfold violatesUnique
  refine List.any_eq_true.mpr ⟨e, he, ?_⟩
  simp [heq]

/-- Variant 1 touches the discovery collection only through `tryInsert`. -/
theorem discoverV1_ledger (distFn : ℚ → ℚ → ℚ → ℚ → ℚ) (chain : ChainReply)
    (now : ℕ) (store : Store) (req : DiscoverReq) :
    (discoverV1 distFn chain now store req).2.discoveries = store.discoveries ∨
    ∃ d, tryInsert store.discoveries d =
      .ok ((discoverV1 distFn chain now store req).2.discoveries) := by
  simp only [discoverV1]
  repeat' split
  all_goals try (left; rfl)
  all_goals right; exact ⟨_, by assumption⟩

/-- The variant-2 commit touches the discovery collection only through
`tryInsert`. -/
theorem commitV2_ledger (now : ℕ) (store : Store) (req : DiscoverReq)
    (t : Treasure) (p : HunterProfile) (cres : Option (String × String)) :
    (commitV2 now store req t p cres).2.discoveries = store.discoveries ∨
    ∃ d, tryInsert store.discoveries d =
      .ok ((commitV2 now store req t p cres).2.discoveries) := by
  simp only [commitV2]
  repeat' split
  all_goals try (left; rfl)
  all_goals right; exact ⟨_, by assumption⟩

/-- Variant 2 touches the discovery collection only through `tryInsert`. -/
theorem discoverV2_ledger (distFn : ℚ → ℚ → ℚ → ℚ → ℚ) (chain : ChainReply)
    (now : ℕ) (store : Store) (req : DiscoverReq) :
    (discoverV2 distFn chain now store req).2.discoveries = store.discoveries ∨
    ∃ d, tryInsert store.discoveries d =
      .ok ((discoverV2 distFn chain now store req).2.discoveries) := by
  simp only [discoverV2]
  repeat' split
  all_goals try (left; rfl)
  all_goals try (apply commitV2_ledger)

/-- C1: at most one Discovery exists per treasure id in every reachable
ledger state; a collision-free `tryInsert` preserves the invariant for an
arbitrary record (no pre-insert existence check assumed), an insert on an
already-present treasure id is rejected by the unique constraint itself, and
both POST /discover handlers preserve the invariant on every input. -/
theorem c1_discovery_uniqueness :
    (∀ s, ReachableLedger s → atMostOnePerTreasure s) ∧
    (∀ ds d l, atMostOnePerTreasure ds → tryInsert ds d = .ok l →
      atMostOnePerTreasure l) ∧
    (∀ ds d, (∃ e ∈ ds, e.treasureId = d.treasureId) →
      tryInsert ds d = .error ()) ∧
    (∀ distFn chain now store req, atMostOnePerTreasure store.discoveries →
      atMostOnePerTreasure (discoverV1 distFn chain now store req).2.discoveries ∧
      atMostOnePerTreasure (discoverV2 distFn chain now store req).2.discoveries) := by
  refine ⟨fun s h => reachable_atMostOne h,
    fun ds d l h hins => atMostOne_tryInsert h hins,
    fun ds d h => tryInsert_dup_treasure h, ?_⟩
  intro distFn chain now store req h
  constructor
  · rcases discoverV1_ledger distFn chain now store req with heq | ⟨d, hok⟩
    · rw [heq]; exact h
    · exact atMostOne_tryInsert h hok
  · rcases discoverV2_ledger distFn chain now store req with heq | ⟨d, hok⟩
    · rw [heq]; exact h
    · exact atMostOne_tryInsert h hok

/-- Witness for C1: from the empty ledger, inserting `dWitA` reaches a state
satisfying the invariant, and a racing insert of `dWitB` on the same
treasure id is rejected by the constraint. -/
theorem c1_discovery_uniqueness_witness :
    atMostOnePerTreasure [dWitA] ∧ tryInsert [dWitA] dWitB = .error () := by
  constructor
  · exact c1_discovery_uniqueness.1 [dWitA]
      (ReachableLedger.step [] [dWitA] ReachableLedger.empty
        (LedgerStep.insertOk [] dWitA [dWitA] rfl))
  · exact c1_discovery_uniqueness.2.2.1 [dWitA] dWitB
      ⟨dWitA, by decide, by decide⟩

/-- The inner catch of variant 1 turns every chain failure into an empty
discovery result, with or without credentials. -/
theorem v1ChainRes_failure (u : UserRec) (msg : String) :
    v1ChainRes u (.failure msg) = none := by
  unfold v1ChainRes
  split <;> rfl

/-- Evaluation of variant 1 once the five pre-chain checks have passed: the
outcome is decided by the ledger insert and the earlier profile lookup. -/
theorem discoverV1_run (distFn : ℚ → ℚ → ℚ → ℚ → ℚ) (chain : ChainReply)
    (now : ℕ) (store : Store) (req : DiscoverReq) (t : Treasure) (u : UserRec)
    (ht : findActiveTreasure store.treasures req.treasureId = some t)
    (hd : findDiscovery store.discoveries req.treasureId = none)
    (hdist : ¬ 100 < distFn req.lat req.lng t.latitude t.longitude)
    (hrank : ¬ getRankNumber ((Option.map HunterProfile.rank
      (findProfile store.profiles req.userId)).getD "beginner") < t.requiredRank)
    (hu : findUser store.users req.userId = some u) :
    discoverV1 distFn chain now store req =
      match tryInsert store.discoveries (v1Discovery req now (v1ChainRes u chain)) with
      | .error _ => (.serverError, store)
      | .ok ds2 =>
        match findProfile store.profiles req.userId with
        | none => (.serverError, { store with discoveries := ds2 })
        | some p =>
          (.success (v1ChainRes u chain).isNone,
            { store with
              discoveries := ds2
              profiles := saveProfile store.profiles req.userId
                (applyProfileUpdate p t.rewardPoints now now) }) := by
  simp only [discoverV1, ht, hd, hu]
  rw [if_neg hdist, if_neg hrank]

/-- Evaluation of the chain step of variant 2 on a thrown chain error, once
every earlier check has passed and the user has credentials: the three
recognized error patterns abort with the store untouched, anything else
degrades to an offline commit. -/
theorem discoverV2_chain (distFn : ℚ → ℚ → ℚ → ℚ → ℚ) (msg : String)
    (now : ℕ) (store : Store) (req : DiscoverReq) (t : Treasure)
    (p : HunterProfile) (u : UserRec)
    (htr : resolveTreasureV2 store.treasures req.treasureId req.proofLat
      req.proofLng = t)
    (hd : findDiscovery store.discoveries req.treasureId = none)
    (hdist : ¬ 100 < distFn req.lat req.lng t.latitude t.longitude)
    (hp : findProfile store.profiles req.userId = some p)
    (hrank : ¬ getRankNumber p.rank < t.requiredRank)
    (hu : findUser store.users req.userId = some u)
    (hcred : (u.profileObjectId.isSome && u.encryptedPrivateKey.isSome) = true) :
    discoverV2 distFn (.failure msg) now store req =
      if strIncludes msg "E_TREASURE_ALREADY_FOUND" then (.chainAlreadyFound, store)
      else if strIncludes msg "E_INVALID_LOCATION" then
        (.chainLocationRejected, store)
      else if strIncludes msg "Insufficient SUI balance" then
        (.insufficientGas, store)
      else commitV2 now store req t p none := by
  simp only [discoverV2, htr, hd, hp, hu, hcred]
  rw [if_neg hdist, if_neg hrank, if_pos trivial]

/-- Counterexample to C3: in variant 2 an insufficient-funds chain failure
does not commit — at a concrete input that passes every earlier check, the
claim aborts with `insufficientGas` and the store (in particular the
discovery ledger and the profile) is returned unchanged. -/
theorem c3_insufficient_funds_aborts_v2 :
    discoverV2 cZeroDist (suiDiscoverTreasure 0 (.success "0xnft" "0xtx")) 3
      wStore wReq = (.insufficientGas, wStore) := by
  decide

/-- C3 (amended): the balance gate of `SuiService.discoverTreasure` turns a
balance below 0.05 SUI into the insufficient-balance error; variant 1
swallows that (like any chain failure) and still commits an offline
discovery with the constant digest and full profile progression; variant 2
instead recognizes the `Insufficient SUI balance` pattern and aborts with
`insufficientGas` and no ledger write. -/
theorem c3_insufficient_funds_split :
    (∀ (balanceMist : ℕ) (txReply : ChainReply),
      mkRat balanceMist 1000000000 < mkRat 5 100 →
      suiDiscoverTreasure balanceMist txReply = .failure insufficientBalanceMsg ∧
      strIncludes insufficientBalanceMsg "Insufficient SUI balance" = true) ∧
    (∀ (distFn : ℚ → ℚ → ℚ → ℚ → ℚ) (msg : String) (now : ℕ) (store : Store)
      (req : DiscoverReq) (t : Treasure) (u : UserRec) (p : HunterProfile),
      findActiveTreasure store.treasures req.treasureId = some t →
      findDiscovery store.discoveries req.treasureId = none →
      ¬ 100 < distFn req.lat req.lng t.latitude t.longitude →
      findProfile store.profiles req.userId = some p →
      ¬ getRankNumber p.rank < t.requiredRank →
      findUser store.users req.userId = some u →
      violatesUnique store.discoveries (offlineDiscoveryV1 req now) = false →
      discoverV1 distFn (.failure msg) now store req =
        (.success true,
          { store with
            discoveries := store.discoveries ++ [offlineDiscoveryV1 req now]
            profiles := saveProfile store.profiles req.userId
              (applyProfileUpdate p t.rewardPoints now now) }) ∧
      (offlineDiscoveryV1 req now).offline = true ∧
      (offlineDiscoveryV1 req now).transactionDigest = "offline_transaction") ∧
    (∀ (distFn : ℚ → ℚ → ℚ → ℚ → ℚ) (now : ℕ) (store : Store)
      (req : DiscoverReq) (t : Treasure) (p : HunterProfile) (u : UserRec),
      resolveTreasureV2 store.treasures req.treasureId req.proofLat
        req.proofLng = t →
      findDiscovery store.discoveries req.treasureId = none →
      ¬ 100 < distFn req.lat req.lng t.latitude t.longitude →
      findProfile store.profiles req.userId = some p →
      ¬ getRankNumber p.rank < t.requiredRank →
      findUser store.users req.userId = some u →
      (u.profileObjectId.isSome && u.encryptedPrivateKey.isSome) = true →
      discoverV2 distFn (.failure insufficientBalanceMsg) now store req =
        (.insufficientGas, store)) := by
  refine ⟨?_, ?_, ?_⟩
  · intro balanceMist txReply hlow
    unfold suiDiscoverTreasure
    rw [if_pos hlow]
    exact ⟨rfl, by decide⟩
  · intro distFn msg now store req t u p ht hd hdist hp hrank hu hv
    have hrank2 : ¬ getRankNumber ((Option.map HunterProfile.rank
        (findProfile store.profiles req.userId)).getD "beginner") <
        t.requiredRank := by
      rw [hp]; simpa using hrank
    refine ⟨?_, rfl, rfl⟩
    rw [discoverV1_run distFn (.failure msg) now store req t u ht hd hdist
      hrank2 hu, v1ChainRes_failure]
    unfold offlineDiscoveryV1 at hv
    rw [tryInsert_ok_of hv]
    simp only [hp]
    rfl
  · intro distFn now store req t p u htr hd hdist hp hrank hu hcred
    rw [discoverV2_chain distFn insufficientBalanceMsg now store req t p u htr
      hd hdist hp hrank hu hcred]
    have h1 : strIncludes insufficientBalanceMsg "E_TREASURE_ALREADY_FOUND" =
        false := by decide
    have h2 : strIncludes insufficientBalanceMsg "E_INVALID_LOCATION" = false := by
      decide
    have h3 : strIncludes insufficientBalanceMsg "Insufficient SUI balance" =
        true := by decide
    rw [h1, h2, h3]
    rfl

/-- Witness for C3 (amended): the three behaviors at concrete inputs — the
balance gate fires at zero balance, variant 1 commits the offline discovery,
variant 2 aborts with no write. -/
theorem c3_insufficient_funds_split_witness :
    (suiDiscoverTreasure 0 (.success "0xnft" "0xtx") =
      .failure insufficientBalanceMsg) ∧
    discoverV1 cZeroDist (.failure insufficientBalanceMsg) 3 wStore wReq =
      (.success true,
        { wStore with
          discoveries := wStore.discoveries ++ [offlineDiscoveryV1 wReq 3]
          profiles := saveProfile wStore.profiles wReq.userId
            (applyProfileUpdate wProfile wTreasure.rewardPoints 3 3) }) ∧
    discoverV2 cZeroDist (.failure insufficientBalanceMsg) 3 wStore wReq =
      (.insufficientGas, wStore) := by
  refine ⟨(c3_insufficient_funds_split.1 0 (.success "0xnft" "0xtx")
      (by decide)).1, ?_, ?_⟩
  · exact (c3_insufficient_funds_split.2.1 cZeroDist insufficientBalanceMsg 3
      wStore wReq wTreasure wUserCreds wProfile (by decide) (by decide)
      (by decide) (by decide) (by decide) (by decide) (by decide)).1
  · exact c3_insufficient_funds_split.2.2 cZeroDist 3 wStore wReq wTreasure
      wProfile wUserCreds (by decide) (by decide) (by decide) (by decide)
      (by decide) (by decide) (by decide)

/-- Counterexample to C4: in variant 1 an `E_TREASURE_ALREADY_FOUND` chain
rejection does not abort — at a concrete input with chain credentials the
claim still commits an offline discovery (the inner catch swallows the
error before the handler-level pattern checks can see it). -/
theorem c4_chain_rejection_swallowed_v1 :
    (discoverV1 cZeroDist
      (.failure "Transaction failed: E_TREASURE_ALREADY_FOUND") 3 wStore
      wReq).1 = .success true ∧
    (discoverV1 cZeroDist
      (.failure "Transaction failed: E_TREASURE_ALREADY_FOUND") 3 wStore
      wReq).2.discoveries = [offlineDiscoveryV1 wReq 3] := by
  decide

/-- C4 (amended): only variant 2 aborts on the chain rejections
`E_TREASURE_ALREADY_FOUND` and `E_INVALID_LOCATION`, before any ledger
write and with the store unchanged; variant 1 swallows every chain error
and commits an offline discovery with full profile progression. -/
theorem c4_chain_rejection_split :
    (∀ (distFn : ℚ → ℚ → ℚ → ℚ → ℚ) (msg : String) (now : ℕ) (store : Store)
      (req : DiscoverReq) (t : Treasure) (p : HunterProfile) (u : UserRec),
      resolveTreasureV2 store.treasures req.treasureId req.proofLat
        req.proofLng = t →
      findDiscovery store.discoveries req.treasureId = none →
      ¬ 100 < distFn req.lat req.lng t.latitude t.longitude →
      findProfile store.profiles req.userId = some p →
      ¬ getRankNumber p.rank < t.requiredRank →
      findUser store.users req.userId = some u →
      (u.profileObjectId.isSome && u.encryptedPrivateKey.isSome) = true →
      strIncludes msg "E_TREASURE_ALREADY_FOUND" = true →
      discoverV2 distFn (.failure msg) now store req =
        (.chainAlreadyFound, store)) ∧
    (∀ (distFn : ℚ → ℚ → ℚ → ℚ → ℚ) (msg : String) (now : ℕ) (store : Store)
      (req : DiscoverReq) (t : Treasure) (p : HunterProfile) (u : UserRec),
      resolveTreasureV2 store.treasures req.treasureId req.proofLat
        req.proofLng = t →
      findDiscovery store.discoveries req.treasureId = none →
      ¬ 100 < distFn req.lat req.lng t.latitude t.longitude →
      findProfile store.profiles req.userId = some p →
      ¬ getRankNumber p.rank < t.requiredRank →
      findUser store.users req.userId = some u →
      (u.profileObjectId.isSome && u.encryptedPrivateKey.isSome) = true →
      strIncludes msg "E_TREASURE_ALREADY_FOUND" = false →
      strIncludes msg "E_INVALID_LOCATION" = true →
      discoverV2 distFn (.failure msg) now store req =
        (.chainLocationRejected, store)) ∧
    (∀ (distFn : ℚ → ℚ → ℚ → ℚ → ℚ) (msg : String) (now : ℕ) (store : Store)
      (req : DiscoverReq) (t : Treasure) (u : UserRec) (p : HunterProfile),
      findActiveTreasure store.treasures req.treasureId = some t →
      findDiscovery store.discoveries req.treasureId = none →
      ¬ 100 < distFn req.lat req.lng t.latitude t.longitude →
      findProfile store.profiles req.userId = some p →
      ¬ getRankNumber p.rank < t.requiredRank →
      findUser store.users req.userId = some u →
      violatesUnique store.discoveries (offlineDiscoveryV1 req now) = false →
      discoverV1 distFn (.failure msg) now store req =
        (.success true,
          { store with
            discoveries := store.discoveries ++ [offlineDiscoveryV1 req now]
            profiles := saveProfile store.profiles req.userId
              (applyProfileUpdate p t.rewardPoints now now) })) := by
  refine ⟨?_, ?_, ?_⟩
  · intro distFn msg now store req t p u htr hd hdist hp hrank hu hcred hm
    rw [discoverV2_chain distFn msg now store req t p u htr hd hdist hp hrank
      hu hcred, hm]
    rfl
  · intro distFn msg now store req t p u htr hd hdist hp hrank hu hcred hm1 hm2
    rw [discoverV2_chain distFn msg now store req t p u htr hd hdist hp hrank
      hu hcred, hm1, hm2]
    rfl
  · intro distFn msg now store req t u p ht hd hdist hp hrank hu hv
    have hrank2 : ¬ getRankNumber ((Option.map HunterProfile.rank
        (findProfile store.profiles req.userId)).getD "beginner") <
        t.requiredRank := by
      rw [hp]; simpa using hrank
    rw [discoverV1_run distFn (.failure msg) now store req t u ht hd hdist
      hrank2 hu, v1ChainRes_failure]
    unfold offlineDiscoveryV1 at hv
    rw [tryInsert_ok_of hv]
    simp only [hp]
    rfl

/-- Witness for C4 (amended): both abort patterns in variant 2 and the
swallowed commit of variant 1, at concrete inputs. -/
theorem c4_chain_rejection_split_witness :
    discoverV2 cZeroDist (.failure "E_TREASURE_ALREADY_FOUND") 3 wStore wReq =
      (.chainAlreadyFound, wStore) ∧
    discoverV2 cZeroDist (.failure "E_INVALID_LOCATION") 3 wStore wReq =
      (.chainLocationRejected, wStore) ∧
    discoverV1 cZeroDist (.failure "E_INVALID_LOCATION") 5 wStore wReq =
      (.success true,
        { wStore with
          discoveries := wStore.discoveries ++ [offlineDiscoveryV1 wReq 5]
          profiles := saveProfile wStore.profiles wReq.userId
            (applyProfileUpdate wProfile wTreasure.rewardPoints 5 5) }) := by
  refine ⟨?_, ?_, ?_⟩
  · exact c4_chain_rejection_split.1 cZeroDist "E_TREASURE_ALREADY_FOUND" 3
      wStore wReq wTreasure wProfile wUserCreds (by decide) (by decide)
      (by decide) (by decide) (by decide) (by decide) (by decide) (by decide)
  · exact c4_chain_rejection_split.2.1 cZeroDist "E_INVALID_LOCATION" 3 wStore
      wReq wTreasure wProfile wUserCreds (by decide) (by decide) (by decide)
      (by decide) (by decide) (by decide) (by decide) (by decide) (by decide)
  · exact c4_chain_rejection_split.2.2 cZeroDist "E_INVALID_LOCATION" 5 wStore
      wReq wTreasure wUserCreds wProfile (by decide) (by decide) (by decide)
      (by decide) (by decide) (by decide) (by decide)

/-- Counterexample to C5: in variant 1, a claim by a player with no
HunterProfile on a rank-1 treasure does not abort before any write — at a
concrete input the discovery is committed to the ledger and the handler then
fails with a server error (the profile update dereferences the missing
profile). -/
theorem c5_missing_profile_partial_write_v1 :
    discoverV1 cZeroDist (.failure "gateway down") 3 wStoreNoProfile wReq =
      (.serverError,
        { wStoreNoProfile with
          discoveries := [offlineDiscoveryV1 wReq 3] }) := by
  decide

/-- C5 (amended): only variant 2 aborts a profile-less claim with
`profileNotFound` before any write; variant 1 has no such check — when the
treasure requires rank 1 the claim passes the eligibility gate under the
default `beginner` rank, commits the Discovery, and only then fails with a
server error, leaving a partial write (ledger changed, profiles not). -/
theorem c5_profile_check_split :
    (∀ (distFn : ℚ → ℚ → ℚ → ℚ → ℚ) (chain : ChainReply) (now : ℕ)
      (store : Store) (req : DiscoverReq),
      findDiscovery store.discoveries req.treasureId = none →
      ¬ 100 < distFn req.lat req.lng
        (resolveTreasureV2 store.treasures req.treasureId req.proofLat
          req.proofLng).latitude
        (resolveTreasureV2 store.treasures req.treasureId req.proofLat
          req.proofLng).longitude →
      findProfile store.profiles req.userId = none →
      discoverV2 distFn chain now store req = (.profileNotFound, store)) ∧
    (∀ (distFn : ℚ → ℚ → ℚ → ℚ → ℚ) (chain : ChainReply) (now : ℕ)
      (store : Store) (req : DiscoverReq) (t : Treasure) (u : UserRec),
      findActiveTreasure store.treasures req.treasureId = some t →
      findDiscovery store.discoveries req.treasureId = none →
      ¬ 100 < distFn req.lat req.lng t.latitude t.longitude →
      findProfile store.profiles req.userId = none →
      t.requiredRank ≤ 1 →
      findUser store.users req.userId = some u →
      violatesUnique store.discoveries
        (v1Discovery req now (v1ChainRes u chain)) = false →
      discoverV1 distFn chain now store req =
        (.serverError,
          { store with
            discoveries := store.discoveries ++
              [v1Discovery req now (v1ChainRes u chain)] })) := by
  constructor
  · intro distFn chain now store req hd hdist hpnone
    simp only [discoverV2, hd, hpnone]
    rw [if_neg hdist]
  · intro distFn chain now store req t u ht hd hdist hpnone hreq hu hv
    have hrank2 : ¬ getRankNumber ((Option.map HunterProfile.rank
        (findProfile store.profiles req.userId)).getD "beginner") <
        t.requiredRank := by
      rw [hpnone]
      have h1 : getRankNumber ((Option.map HunterProfile.rank
          (none : Option HunterProfile)).getD "beginner") = 1 := rfl
      rw [h1]
      omega
    rw [discoverV1_run distFn chain now store req t u ht hd hdist hrank2 hu,
      tryInsert_ok_of hv]
    simp only [hpnone]

/-- Witness for C5 (amended): the variant-2 abort and the variant-1 partial
write at concrete inputs. -/
theorem c5_profile_check_split_witness :
    discoverV2 cZeroDist (.failure "gateway down") 3 wStoreNoProfile wReq =
      (.profileNotFound, wStoreNoProfile) ∧
    discoverV1 cZeroDist (.failure "gateway down") 9 wStoreNoProfile wReq =
      (.serverError,
        { wStoreNoProfile with
          discoveries := wStoreNoProfile.discoveries ++
            [v1Discovery wReq 9
              (v1ChainRes wUserNoCreds (.failure "gateway down"))] }) := by
  constructor
  · exact c5_profile_check_split.1 cZeroDist (.failure "gateway down") 3
      wStoreNoProfile wReq (by decide) (by decide) (by decide)
  · exact c5_profile_check_split.2 cZeroDist (.failure "gateway down") 9
      wStoreNoProfile wReq wTreasure wUserNoCreds (by decide) (by decide)
      (by decide) (by decide) (by decide) (by decide) (by decide)

/-- Counterexample to C9: a treasure that exists but is inactive does not
make the variant-2 claim fail with NotFound — the active-only lookup treats
it as absent, a treasure is synthesized, and the concrete claim succeeds. -/
theorem c9_inactive_treasure_synthesized :
    (∃ t ∈ c9Store.treasures, t.treasureId = c9Req.treasureId ∧
      t.isActive = false) ∧
    (discoverV2 cZeroDist (.failure "gateway down") 7 c9Store c9Req).1 =
      .success true := by
  decide

/-- C9 (amended): in variant 2, whenever no active treasure with the claimed
id exists (absent or inactive alike), the claim proceeds with
`parseBlockchainTreasure id coords` — an active, deterministic synthesis
from the id string and the parsed coordinates; the inactive-treasure
NotFound failure exists only in variant 1, which 404s for absent and
inactive ids alike. -/
theorem c9_resolution_split :
    (∀ (ts : List Treasure) (id : String) (plat plng : ℚ),
      findActiveTreasure ts id = none →
      resolveTreasureV2 ts id plat plng = parseBlockchainTreasure id plat plng) ∧
    (∀ (id : String) (plat plng : ℚ),
      (parseBlockchainTreasure id plat plng).isActive = true ∧
      (parseBlockchainTreasure id plat plng).fromBlockchain = true ∧
      (parseBlockchainTreasure id plat plng).latitude = plat ∧
      (parseBlockchainTreasure id plat plng).longitude = plng) ∧
    (∀ (distFn : ℚ → ℚ → ℚ → ℚ → ℚ) (chain : ChainReply) (now : ℕ)
      (store : Store) (req : DiscoverReq),
      findActiveTreasure store.treasures req.treasureId = none →
      discoverV1 distFn chain now store req = (.notFound, store)) := by
  refine ⟨?_, ?_, ?_⟩
  · intro ts id plat plng h
    unfold resolveTreasureV2
    rw [h]
  · intro id plat plng
    exact ⟨rfl, rfl, rfl, rfl⟩
  · intro distFn chain now store req h
    simp only [discoverV1, h]

/-- Witness for C9 (amended): synthesis for an unknown id and the variant-1
404 on the empty store, at concrete inputs. -/
theorem c9_resolution_split_witness :
    resolveTreasureV2 [] "Q" 1 2 = parseBlockchainTreasure "Q" 1 2 ∧
    (parseBlockchainTreasure "Q" 1 2).isActive = true ∧
    discoverV1 cZeroDist (.failure "m") 0 emptyStore wReq =
      (.notFound, emptyStore) := by
  refine ⟨c9_resolution_split.1 [] "Q" 1 2 (by decide),
    (c9_resolution_split.2.1 "Q" 1 2).1,
    c9_resolution_split.2.2 cZeroDist (.failure "m") 0 emptyStore wReq
      (by decide)⟩

/-- C10: every offline commit of variant 1 stores the constant transaction
digest `offline_transaction`; since the discovery collection carries a
unique index on `transactionDigest`, a ledger that already holds one such
record rejects every further offline insert — for any treasure and any
player — and the variant-1 handler then returns a server error with the
store unchanged even though all spec-level checks passed. -/
theorem c10_offline_digest_collision :
    (∀ (req : DiscoverReq) (now : ℕ),
      (offlineDiscoveryV1 req now).transactionDigest = "offline_transaction") ∧
    (∀ (ds : List Discovery) (req : DiscoverReq) (now : ℕ),
      (∃ e ∈ ds, e.transactionDigest = "offline_transaction") →
      tryInsert ds (offlineDiscoveryV1 req now) = .error ()) ∧
    (∀ (distFn : ℚ → ℚ → ℚ → ℚ → ℚ) (msg : String) (now : ℕ) (store : Store)
      (req : DiscoverReq) (t : Treasure) (u : UserRec) (p : HunterProfile),
      findActiveTreasure store.treasures req.treasureId = some t →
      findDiscovery store.discoveries req.treasureId = none →
      ¬ 100 < distFn req.lat req.lng t.latitude t.longitude →
      findProfile store.profiles req.userId = some p →
      ¬ getRankNumber p.rank < t.requiredRank →
      findUser store.users req.userId = some u →
      (∃ e ∈ store.discoveries, e.transactionDigest = "offline_transaction") →
      discoverV1 distFn (.failure msg) now store req =
        (.serverError, store)) := by
  refine ⟨fun req now => rfl, ?_, ?_⟩
  · intro ds req now h
    obtain ⟨e, he, heq⟩ := h
    refine tryInsert_error_of ?_
    unfold violatesUnique
    refine List.any_eq_true.mpr ⟨e, he, ?_⟩
    simp [heq, offlineDiscoveryV1, v1Discovery]
  · intro distFn msg now store req t u p ht hd hdist hp hrank hu hdup
    have hrank2 : ¬ getRankNumber ((Option.map HunterProfile.rank
        (findProfile store.profiles req.userId)).getD "beginner") <
        t.requiredRank := by
      rw [hp]; simpa using hrank
    rw [discoverV1_run distFn (.failure msg) now store req t u ht hd hdist
      hrank2 hu, v1ChainRes_failure]
    have herr : tryInsert store.discoveries (v1Discovery req now none) =
        .error () := by
      obtain ⟨e, he, heq⟩ := hdup
      refine tryInsert_error_of ?_
      unfold violatesUnique
      refine List.any_eq_true.mpr ⟨e, he, ?_⟩
      simp [heq, v1Discovery]
    rw [herr]

/-- Witness for C10: against a store already holding the variant-1 offline
discovery of `T1`, a fully valid offline claim for the distinct treasure
`T2` by the same player is rejected at the ledger insert and the handler
returns a server error with the store unchanged. -/
theorem c10_offline_digest_collision_witness :
    (offlineDiscoveryV1 c10Req 9).transactionDigest = "offline_transaction" ∧
    tryInsert c10Store.discoveries (offlineDiscoveryV1 c10Req 9) = .error () ∧
    discoverV1 cZeroDist (.failure "gateway down") 9 c10Store c10Req =
      (.serverError, c10Store) := by
  refine ⟨c10_offline_digest_collision.1 c10Req 9,
    c10_offline_digest_collision.2.1 c10Store.discoveries c10Req 9
      ⟨offlineDiscoveryV1 wReq 3, by decide, by decide⟩,
    c10_offline_digest_collision.2.2 cZeroDist "gateway down" 9 c10Store
      c10Req c10Treasure wUserNoCreds wProfile (by decide) (by decide)
      (by decide) (by decide) (by decide) (by decide)
      ⟨offlineDiscoveryV1 wReq 3, by decide, by decide⟩⟩

/-- A treasure that survives the nearby filters is an active in-radius
member of the treasure collection with no discovery record. -/
theorem mem_nearbyAvailable (distFn : ℚ → ℚ → ℚ → ℚ → ℚ) (store : Store)
    (lat lng radius : ℚ) {t : Treasure}
    (h : t ∈ nearbyAvailable distFn store lat lng radius) :
    t ∈ store.treasures ∧ t.isActive = true ∧
    distFn lat lng t.latitude t.longitude ≤ radius ∧
    ∀ d ∈ store.discoveries, d.treasureId ≠ t.treasureId := by
  unfold nearbyAvailable nearbyPool at h
  obtain ⟨hpool, hnd⟩ := List.mem_filter.mp h
  have h2 := List.mem_of_mem_take hpool
  rw [List.mem_insertionSort] at h2
  obtain ⟨hts, hcond⟩ := List.mem_filter.mp h2
  simp only [Bool.and_eq_true, decide_eq_true_eq] at hcond
  refine ⟨hts, hcond.1, hcond.2, ?_⟩
  intro d hd heq
  simp only [Bool.not_eq_true'] at hnd
  rw [Bool.eq_false_iff] at hnd
  refine hnd ?_
  rw [List.contains_iff_exists_mem_beq]
  exact ⟨d.treasureId, List.mem_map.mpr ⟨d, hd, rfl⟩, by simp [heq]⟩

/-- Membership in the GET /nearby result, characterized through the
available list. -/
theorem mem_nearbyQuery (distFn : ℚ → ℚ → ℚ → ℚ → ℚ) (store : Store)
    (lat lng radius : ℚ) {e : NearbyEntry} :
    e ∈ nearbyQuery distFn store lat lng radius ↔
    ∃ t ∈ nearbyAvailable distFn store lat lng radius,
      e = NearbyEntry.mk t (jsRound (distFn lat lng t.latitude t.longitude)) := by
  unfold nearbyQuery
  rw [List.mem_insertionSort, List.mem_map]
  constructor
  · rintro ⟨t, ht, rfl⟩
    exact ⟨t, ht, rfl⟩
  · rintro ⟨t, ht, rfl⟩
    exact ⟨t, ht, rfl⟩

/-- Counterexample to C8: the 20-result cap is applied before the
discovered-filter.  With 21 active in-radius treasures of which the nearest
is discovered, the response holds only 19 entries — strictly below the cap —
yet the 21st treasure (active, in radius, undiscovered) is missing. -/
theorem c8_cap_before_filter_drops_treasure :
    (nearbyQuery c8Dist c8Store 0 0 100).length = 19 ∧
    (c8Treasure 20) ∈ c8Store.treasures ∧
    (c8Treasure 20).isActive = true ∧
    c8Dist 0 0 (c8Treasure 20).latitude (c8Treasure 20).longitude ≤ 100 ∧
    (∀ d ∈ c8Store.discoveries, d.treasureId ≠ (c8Treasure 20).treasureId) ∧
    ∀ e ∈ nearbyQuery c8Dist c8Store 0 0 100, e.treasure ≠ c8Treasure 20 := by
  decide

/-- C8 (amended): every GET /nearby entry is an active, in-radius,
undiscovered treasure of the collection carrying its rounded distance, the
result is sorted by ascending (rounded) distance and holds at most 20
entries; completeness holds only relative to the pre-filter cap: when at
most 20 active in-radius treasures exist, every active in-radius
undiscovered treasure appears (the cap is applied before the
discovered-filter, so with more than 20 candidates an eligible treasure can
be dropped even though the response holds fewer than 20 entries). -/
theorem c8_nearby_properties (distFn : ℚ → ℚ → ℚ → ℚ → ℚ) (store : Store)
    (lat lng radius : ℚ) :
    (∀ e ∈ nearbyQuery distFn store lat lng radius,
      e.treasure ∈ store.treasures ∧ e.treasure.isActive = true ∧
      distFn lat lng e.treasure.latitude e.treasure.longitude ≤ radius ∧
      (∀ d ∈ store.discoveries, d.treasureId ≠ e.treasure.treasureId) ∧
      e.distance = jsRound (distFn lat lng e.treasure.latitude
        e.treasure.longitude)) ∧
    (nearbyQuery distFn store lat lng radius).Sorted
      (fun a b => a.distance ≤ b.distance) ∧
    (nearbyQuery distFn store lat lng radius).length ≤ 20 ∧
    ((store.treasures.filter (fun t => t.isActive &&
        distFn lat lng t.latitude t.longitude ≤ radius)).length ≤ 20 →
      ∀ t ∈ store.treasures, t.isActive = true →
      distFn lat lng t.latitude t.longitude ≤ radius →
      (∀ d ∈ store.discoveries, d.treasureId ≠ t.treasureId) →
      ∃ e ∈ nearbyQuery distFn store lat lng radius, e.treasure = t) := by
  refine ⟨?_, ?_, ?_, ?_⟩
  · intro e he
    obtain ⟨t, ht, rfl⟩ := (mem_nearbyQuery distFn store lat lng radius).mp he
    obtain ⟨h1, h2, h3, h4⟩ := mem_nearbyAvailable distFn store lat lng radius ht
    exact ⟨h1, h2, h3, h4, rfl⟩
  · exact List.sorted_insertionSort _ _
  · unfold nearbyQuery
    rw [List.length_insertionSort, List.length_map]
    calc (nearbyAvailable distFn store lat lng radius).length
        ≤ (nearbyPool distFn store lat lng radius).length :=
          List.length_filter_le _ _
      _ ≤ 20 := by
          unfold nearbyPool
          rw [List.length_take]
          exact min_le_left _ _
  · intro h20 t hts hact hrad hnd
    refine ⟨NearbyEntry.mk t (jsRound (distFn lat lng t.latitude t.longitude)),
      (mem_nearbyQuery distFn store lat lng radius).mpr ⟨t, ?_, rfl⟩, rfl⟩
    unfold nearbyAvailable
    rw [List.mem_filter]
    constructor
    · unfold nearbyPool
      rw [List.take_of_length_le]
      · rw [List.mem_insertionSort, List.mem_filter]
        exact ⟨hts, by simp [hact, hrad]⟩
      · rw [List.length_insertionSort]
        exact h20
    · simp only [Bool.not_eq_true']
      rw [Bool.eq_false_iff]
      intro hex
      rw [List.contains_iff_exists_mem_beq] at hex
      obtain ⟨x, hx, hbeq⟩ := hex
      obtain ⟨d, hd, rfl⟩ := List.mem_map.mp hx
      have heq2 : t.treasureId = d.treasureId := by simpa using hbeq
      exact hnd d hd heq2.symm

/-- Witness for C8 (amended): on a one-treasure store the single active
in-radius undiscovered treasure appears in the response, it is active, and
the response respects the cap. -/
theorem c8_nearby_properties_witness :
    (∃ e ∈ nearbyQuery c8Dist wStore 0 0 100, e.treasure = wTreasure) ∧
    wTreasure.isActive = true ∧
    (nearbyQuery c8Dist wStore 0 0 100).length ≤ 20 := by
  have h := c8_nearby_properties c8Dist wStore 0 0 100
  obtain ⟨e, he, het⟩ := h.2.2.2 (by decide) wTreasure (by decide) (by decide)
    (by decide) (by decide)
  refine ⟨⟨e, he, het⟩, ?_, h.2.2.1⟩
  have h2 := (h.1 e he).2.1
  rwa [het] at h2

end TreasureHunt
